import Mathlib

/-!
Verification of the Travio compatibility-scoring engine.

This file shallowly embeds the compatibility-scoring code of the Travio
travel platform:

* `AIService.calculateCompatibilityScore` and its helpers
  `calculateDateOverlap`, `calculateBudgetCompatibility`,
  `getTravelStyleCompatibility` (backend/src/services/aiService.js), and
* the Trip-model variant `tripSchema.methods.calculateCompatibility`
  (backend Trip model).

Modelling conventions:

* JS numbers are modelled as rationals (`ℚ`); division follows the Lean
  convention `x / 0 = 0` where the source would produce `NaN`/`Infinity`
  on a zero denominator (such inputs are degenerate and are not relied on
  by any confirmation below).
* Optional document attributes are modelled with `Option`.  The JS
  truthiness guards `a && b` on object/array-valued attributes coincide
  with presence (objects and arrays, even empty ones, are truthy); for
  numeric attributes the value `0` is falsy, which is modelled explicitly.
  Travel styles are schema enum strings (non-empty), so truthiness of a
  present style string coincides with presence.
* `Date` values are modelled as rational timestamps; `end` is a reserved
  word in Lean, so date ranges use the field name `stop` for the JS `end`.
* Dynamic JS property access (`obj[key]`) reaches the prototype chain, so
  keys such as `"constructor"` resolve to inherited `Object.prototype`
  members rather than `undefined`.  The style-compatibility lookup is
  modelled twice: an own-property model used inside the scoring function,
  and a prototype-chain-aware model (`getTravelStyleCompatibilityJS`);
  the two are proved to agree on every argument that is not an
  `Object.prototype` property name — in particular on all schema enum
  travel styles.
-/

namespace Travio

/-- JS `x || d` on an optional numeric field: `undefined` and `0` are falsy. -/
def jsOr (x : Option ℚ) (d : ℚ) : ℚ :=
  match x with
  | none => d
  | some v => if v = 0 then d else v

/-- A date range `{start, end}` (an availability window or the trip window);
the JS field `end` is called `stop` here because `end` is reserved in Lean. -/
structure DateRange where
  start : ℚ
  stop : ℚ
deriving DecidableEq

/-- A user's budget range `{min, max, preferred}`; `min` and `max` are
optional (the code applies `||` defaults to them). -/
structure BudgetRange where
  min : Option ℚ
  max : Option ℚ
  preferred : ℚ
deriving DecidableEq

/-- The slice of a user profile read by `calculateCompatibilityScore`. -/
structure UserProfile where
  preferredDestinations : Option (List String)
  availableDates : Option (List DateRange)
  interests : Option (List String)
  budgetRange : Option BudgetRange
  travelStyle : Option String
  languages : Option (List String)
deriving DecidableEq

/-- The slice of a trip read by `calculateCompatibilityScore`. -/
structure Trip where
  dates : Option DateRange
  budget : Option ℚ
deriving DecidableEq

/-- The per-factor breakdown returned by `calculateCompatibilityScore`. -/
structure Factors where
  destinationMatch : ℚ
  dateOverlap : ℚ
  interestSimilarity : ℚ
  budgetCompatibility : ℚ
  travelStyleMatch : ℚ
  languageMatch : ℚ
deriving DecidableEq

/-- The value `{score, factors}` returned by `calculateCompatibilityScore`;
`score` is an integer (`Math.round`). -/
structure CompatibilityResult where
  score : ℤ
  factors : Factors
deriving DecidableEq

/-- `AIService.calculateDateOverlap(availableDates, tripStart, tripEnd)`:
per window, if `max(tripStart, availStart) < min(tripEnd, availEnd)` the
difference is added to the overlap duration; the result is
`min(overlapDuration / tripDuration * 100, 100)` (0 for an empty list). -/
def calculateDateOverlap (availableDates : List DateRange) (tripStart tripEnd : ℚ) : ℚ :=
  if availableDates = [] then 0
  else
    let tripDuration := tripEnd - tripStart
    let overlapDuration := availableDates.foldl
      (fun acc dateRange =>
        let overlapStart := max tripStart dateRange.start
        let overlapEnd := min tripEnd dateRange.stop
        if overlapStart < overlapEnd then acc + (overlapEnd - overlapStart) else acc)
      0
    min (overlapDuration / tripDuration * 100) 100

/-- Effective per-party budget cap: `budget.max || budget.preferred * 1.5`. -/
def effectiveMax (budget : BudgetRange) : ℚ :=
  jsOr budget.max (budget.preferred * 1.5)

/-- `AIService.calculateBudgetCompatibility(requesterBudget, recipientBudget,
tripBudget)`.  The code's local `minBudget` is the smaller of the two
effective caps and its `maxBudget` is the larger of the two minimums. -/
def calculateBudgetCompatibility (requesterBudget recipientBudget : BudgetRange)
    (tripBudget : ℚ) : ℚ :=
  let requesterMax := effectiveMax requesterBudget
  let recipientMax := effectiveMax recipientBudget
  let minBudget := min requesterMax recipientMax
  let maxBudget := max (jsOr requesterBudget.min 0) (jsOr recipientBudget.min 0)
  if tripBudget ≥ maxBudget ∧ tripBudget ≤ minBudget then
    100
  else if tripBudget < maxBudget then
    max 0 (100 - (maxBudget - tripBudget) / maxBudget * 100)
  else
    max 0 (100 - (tripBudget - minBudget) / tripBudget * 100)

/-- The literal style-compatibility object of
`AIService.getTravelStyleCompatibility`, as an association list. -/
def compatibilityMatrix : List (String × List (String × ℚ)) :=
  [("budget", [("budget", 100), ("mid-range", 70), ("luxury", 20), ("backpacker", 90)]),
   ("mid-range", [("budget", 70), ("mid-range", 100), ("luxury", 80), ("backpacker", 50)]),
   ("luxury", [("budget", 20), ("mid-range", 80), ("luxury", 100), ("backpacker", 10)]),
   ("backpacker", [("budget", 90), ("mid-range", 50), ("luxury", 10), ("backpacker", 100)])]

/-- `compatibilityMatrix[style1]?.[style2]` restricted to OWN properties:
a two-level association-list lookup.  Real JS dynamic property access also
reaches properties inherited from `Object.prototype` (keys such as
`"constructor"` or `"toString"` hit the prototype chain instead of
returning `undefined`); that behavior is modelled separately by
`getTravelStyleCompatibilityJS` below, and the own-property model used
inside the scoring function is proved to agree with it for every argument
that is not an `Object.prototype` property name (see
`getTravelStyleCompatibilityJS_agrees`) — in particular for all schema
enum style values. -/
def matrixLookup (m : List (String × List (String × ℚ))) (style1 style2 : String) :
    Option ℚ :=
  match m.lookup style1 with
  | none => none
  | some row => row.lookup style2

/-- `AIService.getTravelStyleCompatibility(style1, style2)` :
`compatibilityMatrix[style1]?.[style2] || 50`, under the own-property
lookup model of `matrixLookup` (exact for arguments that are not
`Object.prototype` property names; `getTravelStyleCompatibilityJS` keeps
the prototype-chain behavior). -/
def getTravelStyleCompatibility (style1 style2 : String) : ℚ :=
  jsOr (matrixLookup compatibilityMatrix style1 style2) 50

/-- The property names every JS object literal inherits from
`Object.prototype` (ECMAScript standard members plus the legacy accessor
properties present in Node); each of them evaluates to a truthy value (a
function, or the `Object.prototype` object itself for `"__proto__"`). -/
def objectPrototypeKeys : List String :=
  ["constructor", "hasOwnProperty", "isPrototypeOf", "propertyIsEnumerable",
   "toLocaleString", "toString", "valueOf", "__proto__", "__defineGetter__",
   "__defineSetter__", "__lookupGetter__", "__lookupSetter__"]

/-- A value produced by `compatibilityMatrix[style1]?.[style2] || 50` under
real JS property-access semantics: either a number, or a member inherited
from `Object.prototype` (truthy, so `|| 50` passes it through). -/
inductive JSValue where
  | num : ℚ → JSValue
  | inherited : String → JSValue
deriving DecidableEq

/-- `compatibilityMatrix[style1]?.[style2] || 50` under real JS
property-access semantics, which reach the prototype chain: a row access
with a non-own key that names an `Object.prototype` member yields that
inherited member (truthy), which `|| 50` returns unchanged.  When `style1`
itself names an `Object.prototype` member, the access continues through a
host function object; that case is outside this model and returned as
`none` (no theorem below evaluates it). -/
def getTravelStyleCompatibilityJS (style1 style2 : String) : Option JSValue :=
  match compatibilityMatrix.lookup style1 with
  | some row =>
      match row.lookup style2 with
      | some v => some (if v = 0 then JSValue.num 50 else JSValue.num v)
      | none =>
          if style2 ∈ objectPrototypeKeys then some (JSValue.inherited style2)
          else some (JSValue.num 50)
  | none =>
      if style1 ∈ objectPrototypeKeys then none
      else some (JSValue.num 50)

/-- The keys of the style-compatibility matrix. -/
def styleKeys : List String :=
  ["budget", "mid-range", "luxury", "backpacker"]

/-- `requester.xs.filter(x => recipient.ys.includes(x)).length`. -/
def countCommon (xs ys : List String) : ℕ :=
  (xs.filter (fun x => decide (x ∈ ys))).length

/-- `new Set([...xs, ...ys]).size`: the number of distinct elements. -/
def unionSize (xs ys : List String) : ℕ :=
  ((xs ++ ys).dedup).length

/-- The weight table of `calculateCompatibilityScore` (reusing `Factors` as
a record of one rational per factor). -/
def weights : Factors :=
  { destinationMatch := 0.30
    dateOverlap := 0.25
    interestSimilarity := 0.20
    budgetCompatibility := 0.15
    travelStyleMatch := 0.05
    languageMatch := 0.05 }

/-- `Object.keys(factors).reduce((sum, f) => sum + factors[f] * weights[f], 0)`
in the object's insertion order. -/
def weightedTotal (f : Factors) : ℚ :=
  f.destinationMatch * weights.destinationMatch
    + f.dateOverlap * weights.dateOverlap
    + f.interestSimilarity * weights.interestSimilarity
    + f.budgetCompatibility * weights.budgetCompatibility
    + f.travelStyleMatch * weights.travelStyleMatch
    + f.languageMatch * weights.languageMatch

/-- The `factors.destinationMatch` computation of
`calculateCompatibilityScore`: guarded on both users' optional
`preferredDestinations`, then `Math.min(commonDestinations.length * 20, 100)`. -/
def destinationMatchFactor (requester recipient : UserProfile) : ℚ :=
  match requester.preferredDestinations, recipient.preferredDestinations with
  | some reqDest, some recDest => min ((countCommon reqDest recDest : ℚ) * 20) 100
  | _, _ => 0

/-- The `factors.dateOverlap` computation of `calculateCompatibilityScore`:
guarded on both users' `availableDates` and `trip.dates`, then
`Math.min(requesterOverlap, recipientOverlap)`. -/
def dateOverlapFactor (requester recipient : UserProfile) (trip : Trip) : ℚ :=
  match requester.availableDates, recipient.availableDates, trip.dates with
  | some reqAvail, some recAvail, some dates =>
      min (calculateDateOverlap reqAvail dates.start dates.stop)
          (calculateDateOverlap recAvail dates.start dates.stop)
  | _, _, _ => 0

/-- The `factors.interestSimilarity` computation of
`calculateCompatibilityScore`: guarded on both users' `interests`, then
`totalInterests > 0 ? commonInterests.length / totalInterests * 100 : 0`. -/
def interestSimilarityFactor (requester recipient : UserProfile) : ℚ :=
  match requester.interests, recipient.interests with
  | some reqInt, some recInt =>
      if unionSize reqInt recInt > 0 then
        (countCommon reqInt recInt : ℚ) / (unionSize reqInt recInt : ℚ) * 100
      else 0
  | _, _ => 0

/-- The `factors.budgetCompatibility` computation of
`calculateCompatibilityScore`: guarded on both users' `budgetRange` and on
`trip.budget` (a number, so a zero budget is falsy and fails the guard). -/
def budgetCompatibilityFactor (requester recipient : UserProfile) (trip : Trip) : ℚ :=
  match requester.budgetRange, recipient.budgetRange, trip.budget with
  | some reqB, some recB, some b =>
      if b = 0 then 0 else calculateBudgetCompatibility reqB recB b
  | _, _, _ => 0

/-- The `factors.travelStyleMatch` computation of
`calculateCompatibilityScore`: guarded on both users' `travelStyle`
(schema enum strings, hence truthy exactly when present), then
`s1 === s2 ? 100 : getTravelStyleCompatibility(s1, s2)`. -/
def travelStyleMatchFactor (requester recipient : UserProfile) : ℚ :=
  match requester.travelStyle, recipient.travelStyle with
  | some s1, some s2 =>
      if s1 = s2 then 100 else getTravelStyleCompatibility s1 s2
  | _, _ => 0

/-- The `factors.languageMatch` computation of `calculateCompatibilityScore`:
guarded on both users' `languages`, then
`commonLanguages.length > 0 ? 100 : 0`. -/
def languageMatchFactor (requester recipient : UserProfile) : ℚ :=
  match requester.languages, recipient.languages with
  | some reqL, some recL => if countCommon reqL recL > 0 then 100 else 0
  | _, _ => 0

/-- The `factors` record as populated by `calculateCompatibilityScore`
(each field starts at 0 and is overwritten when its guard passes). -/
def computeFactors (requester recipient : UserProfile) (trip : Trip) : Factors :=
  { destinationMatch := destinationMatchFactor requester recipient
    dateOverlap := dateOverlapFactor requester recipient trip
    interestSimilarity := interestSimilarityFactor requester recipient
    budgetCompatibility := budgetCompatibilityFactor requester recipient trip
    travelStyleMatch := travelStyleMatchFactor requester recipient
    languageMatch := languageMatchFactor requester recipient }

/-- `AIService.calculateCompatibilityScore(requester, recipient, trip)`:
returns `{score: Math.round(totalScore), factors}`. -/
def calculateCompatibilityScore (requester recipient : UserProfile) (trip : Trip) :
    CompatibilityResult :=
  let factors := computeFactors requester recipient trip
  { score := round (weightedTotal factors), factors := factors }

/-!
Spec-side definitions, written from the specification's wording, used to
state refinement-style claims against the code-side definitions above.
-/

/-- Spec wording of the date-overlap sub-algorithm: per window
`max(0, min(tripEnd, windowEnd) − max(tripStart, windowStart))`, summed
across windows, divided by the trip duration, as a percentage, clamped
at 100. -/
def specDateOverlap (windows : List DateRange) (tripStart tripEnd : ℚ) : ℚ :=
  min ((windows.map (fun w => max 0 (min tripEnd w.stop - max tripStart w.start))).sum
        / (tripEnd - tripStart) * 100) 100

/-- Spec wording of the lower end of the affordable budget band:
`max(requesterMin, recipientMin)` with a missing min defaulting to 0. -/
def bandMin (requesterBudget recipientBudget : BudgetRange) : ℚ :=
  max (requesterBudget.min.getD 0) (recipientBudget.min.getD 0)

/-- Spec wording of the upper end of the affordable budget band:
`min(requesterMax, recipientMax)` with a missing max defaulting to
`preferred × 1.5`. -/
def bandMax (requesterBudget recipientBudget : BudgetRange) : ℚ :=
  min (requesterBudget.max.getD (requesterBudget.preferred * 1.5))
      (recipientBudget.max.getD (recipientBudget.preferred * 1.5))

end Travio

namespace TripModel

/-- `user.budgetRange` as read by the Trip-model method
`tripSchema.methods.calculateCompatibility` (fields accessed directly). -/
structure UserBudgetRange where
  min : ℚ
  max : ℚ

/-- The slice of a user document read by the Trip-model
`calculateCompatibility`. -/
structure User where
  travelInterests : List String
  budgetRange : UserBudgetRange
  travelStyle : String

/-- The slice of a trip document read by the Trip-model
`calculateCompatibility` (`budgetEstimated` models `this.budget.estimated`). -/
structure TripDoc where
  interests : List String
  budgetEstimated : ℚ
  travelStyle : String

/-- The factor record built by the Trip-model `calculateCompatibility`,
in insertion order. -/
structure TripFactors where
  dateOverlap : ℚ
  interestMatch : ℚ
  budgetCompatibility : ℚ
  travelStyleMatch : ℚ
  locationProximity : ℚ

/-- The `{score, factors}` value returned by the Trip-model
`calculateCompatibility`. -/
structure TripCompatibilityResult where
  score : ℤ
  factors : TripFactors

/-- `tripSchema.methods.calculateCompatibility(user)`: hardcodes
`factors.dateOverlap = 20` and `factors.locationProximity = 10`, computes
the interest, budget and style factors, and returns `Math.round` of the sum
of `Object.values(factors)`. -/
def calculateCompatibility (trip : TripDoc) (user : User) : TripCompatibilityResult :=
  let dateOverlap : ℚ := 20
  let commonInterests := trip.interests.filter (fun i => decide (i ∈ user.travelInterests))
  let interestMatch : ℚ :=
    (commonInterests.length : ℚ) / (max (trip.interests.length : ℚ) 1) * 30
  let userBudgetMid : ℚ := (user.budgetRange.min + user.budgetRange.max) / 2
  let budgetDiff : ℚ := |trip.budgetEstimated - userBudgetMid|
  let maxBudget : ℚ := max trip.budgetEstimated userBudgetMid
  let budgetCompatibility : ℚ := max 0 (1 - budgetDiff / maxBudget) * 25
  let travelStyleMatch : ℚ := if trip.travelStyle = user.travelStyle then 15 else 0
  let locationProximity : ℚ := 10
  let score :=
    dateOverlap + interestMatch + budgetCompatibility + travelStyleMatch + locationProximity
  { score := round score
    factors := ⟨dateOverlap, interestMatch, budgetCompatibility, travelStyleMatch,
      locationProximity⟩ }

end TripModel

namespace Travio

lemma countCommon_toFinset (xs ys : List String) (h : xs.Nodup) :
    countCommon xs ys = (xs.toFinset ∩ ys.toFinset).card := by
  rw [countCommon, ← List.toFinset_card_of_nodup (h.filter _), List.toFinset_filter]
  congr 1
  ext a
  simp

lemma countCommon_comm (xs ys : List String) (hx : xs.Nodup) (hy : ys.Nodup) :
    countCommon xs ys = countCommon ys xs := by
  rw [countCommon_toFinset xs ys hx, countCommon_toFinset ys xs hy, Finset.inter_comm]

lemma unionSize_eq (xs ys : List String) :
    unionSize xs ys = (xs.toFinset ∪ ys.toFinset).card := by
  rw [unionSize, ← List.card_toFinset, List.toFinset_append]

lemma unionSize_comm (xs ys : List String) : unionSize xs ys = unionSize ys xs := by
  rw [unionSize_eq, unionSize_eq, Finset.union_comm]

lemma countCommon_le_unionSize (xs ys : List String) (hx : xs.Nodup) :
    countCommon xs ys ≤ unionSize xs ys := by
  rw [countCommon_toFinset xs ys hx, unionSize_eq]
  exact Finset.card_le_card (Finset.inter_subset_left.trans Finset.subset_union_left)

lemma countCommon_pos_iff (xs ys : List String) :
    0 < countCommon xs ys ↔ ∃ a ∈ xs, a ∈ ys := by
  rw [countCommon, ← List.countP_eq_length_filter, List.countP_pos_iff]
  simp

lemma foldl_overlap (tripStart tripEnd : ℚ) (l : List DateRange) (acc : ℚ) :
    l.foldl (fun acc dateRange =>
      let overlapStart := max tripStart dateRange.start
      let overlapEnd := min tripEnd dateRange.stop
      if overlapStart < overlapEnd then acc + (overlapEnd - overlapStart) else acc) acc
    = acc + (l.map (fun w => max 0 (min tripEnd w.stop - max tripStart w.start))).sum := by
  induction l generalizing acc with
  | nil => simp
  | cons w t ih =>
      rw [List.foldl_cons, List.map_cons, List.sum_cons, ih]
      dsimp only
      by_cases h : max tripStart w.start < min tripEnd w.stop
      · rw [if_pos h, max_eq_right (le_of_lt (sub_pos.2 h))]
        ring
      · rw [if_neg h, max_eq_left (sub_nonpos.2 (le_of_not_lt h))]
        ring

theorem calculateDateOverlap_eq_spec (windows : List DateRange) (ts te : ℚ) :
    calculateDateOverlap windows ts te = specDateOverlap windows ts te := by
  rw [calculateDateOverlap, specDateOverlap]
  split_ifs with h
  · subst h
    rw [List.map_nil, List.sum_nil, zero_div, zero_mul, min_eq_left (by norm_num)]
  · simp only [foldl_overlap, zero_add]

lemma overlap_term_zero_of_le (ts te : ℚ) (h : te ≤ ts) (w : DateRange) :
    max 0 (min te w.stop - max ts w.start) = 0 := by
  rw [max_eq_left]
  have h1 : min te w.stop ≤ te := min_le_left _ _
  have h2 : ts ≤ max ts w.start := le_max_left _ _
  linarith

lemma specDateOverlap_nonneg (windows : List DateRange) (ts te : ℚ) :
    0 ≤ specDateOverlap windows ts te := by
  refine le_min ?_ (by norm_num)
  rcases le_or_lt te ts with h | h
  · have hsum : (windows.map (fun w => max 0 (min te w.stop - max ts w.start))).sum = 0 := by
      apply List.sum_eq_zero
      intro x hx
      rw [List.mem_map] at hx
      obtain ⟨w, _, rfl⟩ := hx
      exact overlap_term_zero_of_le ts te h w
    rw [hsum, zero_div, zero_mul]
  · have hsum : 0 ≤ (windows.map (fun w => max 0 (min te w.stop - max ts w.start))).sum := by
      apply List.sum_nonneg
      intro x hx
      rw [List.mem_map] at hx
      obtain ⟨w, _, rfl⟩ := hx
      exact le_max_left _ _
    have hd : (0:ℚ) ≤ te - ts := by linarith
    exact mul_nonneg (div_nonneg hsum hd) (by norm_num)

lemma calculateDateOverlap_bounds (windows : List DateRange) (ts te : ℚ) :
    0 ≤ calculateDateOverlap windows ts te ∧ calculateDateOverlap windows ts te ≤ 100 := by
  rw [calculateDateOverlap_eq_spec]
  exact ⟨specDateOverlap_nonneg windows ts te, min_le_right _ _⟩

lemma calculateBudgetCompatibility_nonneg (br1 br2 : BudgetRange) (b : ℚ) :
    0 ≤ calculateBudgetCompatibility br1 br2 b := by
  rw [calculateBudgetCompatibility]
  split_ifs
  · norm_num
  · exact le_max_left _ _
  · exact le_max_left _ _

lemma calculateBudgetCompatibility_le_100 (br1 br2 : BudgetRange) (b : ℚ) (hb : 0 < b) :
    calculateBudgetCompatibility br1 br2 b ≤ 100 := by
  rw [calculateBudgetCompatibility]
  split_ifs with h1 h2
  · exact le_refl _
  · apply max_le (by norm_num)
    have hlow : (0:ℚ) < max (jsOr br1.min 0) (jsOr br2.min 0) := lt_trans hb h2
    have hpen : 0 ≤ (max (jsOr br1.min 0) (jsOr br2.min 0) - b)
        / max (jsOr br1.min 0) (jsOr br2.min 0) * 100 :=
      mul_nonneg (div_nonneg (by linarith) hlow.le) (by norm_num)
    linarith
  · push_neg at h1
    have hlow : max (jsOr br1.min 0) (jsOr br2.min 0) ≤ b := not_lt.1 h2
    have hhigh : min (effectiveMax br1) (effectiveMax br2) < b := h1 hlow
    apply max_le (by norm_num)
    have hpen : 0 ≤ (b - min (effectiveMax br1) (effectiveMax br2)) / b * 100 :=
      mul_nonneg (div_nonneg (by linarith) hb.le) (by norm_num)
    linarith

end Travio

namespace Travio

lemma matrixLookup_left_none (a b : String) (ha : a ∉ styleKeys) :
    matrixLookup compatibilityMatrix a b = none := by
  simp only [styleKeys, List.mem_cons, List.not_mem_nil, or_false, not_or] at ha
  obtain ⟨h1, h2, h3, h4⟩ := ha
  simp [matrixLookup, compatibilityMatrix, List.lookup,
    beq_eq_false_iff_ne.2 h1, beq_eq_false_iff_ne.2 h2,
    beq_eq_false_iff_ne.2 h3, beq_eq_false_iff_ne.2 h4]

lemma matrixLookup_right_none (a b : String) (hb : b ∉ styleKeys) :
    matrixLookup compatibilityMatrix a b = none := by
  simp only [styleKeys, List.mem_cons, List.not_mem_nil, or_false, not_or] at hb
  obtain ⟨h1, h2, h3, h4⟩ := hb
  by_cases ha : a ∈ styleKeys
  · simp only [styleKeys, List.mem_cons, List.not_mem_nil, or_false] at ha
    rcases ha with ha | ha | ha | ha <;> subst ha <;>
      simp [matrixLookup, compatibilityMatrix, List.lookup,
        beq_eq_false_iff_ne.2 h1, beq_eq_false_iff_ne.2 h2,
        beq_eq_false_iff_ne.2 h3, beq_eq_false_iff_ne.2 h4]
  · simp only [styleKeys, List.mem_cons, List.not_mem_nil, or_false, not_or] at ha
    obtain ⟨g1, g2, g3, g4⟩ := ha
    simp [matrixLookup, compatibilityMatrix, List.lookup,
      beq_eq_false_iff_ne.2 g1, beq_eq_false_iff_ne.2 g2,
      beq_eq_false_iff_ne.2 g3, beq_eq_false_iff_ne.2 g4]

lemma getTravelStyleCompatibility_default (a b : String)
    (h : a ∉ styleKeys ∨ b ∉ styleKeys) :
    getTravelStyleCompatibility a b = 50 := by
  rcases h with h | h
  · rw [getTravelStyleCompatibility, matrixLookup_left_none a b h]
    rfl
  · rw [getTravelStyleCompatibility, matrixLookup_right_none a b h]
    rfl

lemma getTravelStyleCompatibility_comm (a b : String) :
    getTravelStyleCompatibility a b = getTravelStyleCompatibility b a := by
  by_cases ha : a ∈ styleKeys
  · by_cases hb : b ∈ styleKeys
    · simp only [styleKeys, List.mem_cons, List.not_mem_nil, or_false] at ha hb
      rcases ha with ha | ha | ha | ha <;> rcases hb with hb | hb | hb | hb <;>
        subst ha <;> subst hb <;> decide
    · rw [getTravelStyleCompatibility_default a b (Or.inr hb),
          getTravelStyleCompatibility_default b a (Or.inl hb)]
  · rw [getTravelStyleCompatibility_default a b (Or.inl ha),
        getTravelStyleCompatibility_default b a (Or.inr ha)]

lemma getTravelStyleCompatibility_bounds (a b : String) :
    0 ≤ getTravelStyleCompatibility a b ∧ getTravelStyleCompatibility a b ≤ 100 := by
  by_cases ha : a ∈ styleKeys
  · by_cases hb : b ∈ styleKeys
    · simp only [styleKeys, List.mem_cons, List.not_mem_nil, or_false] at ha hb
      rcases ha with ha | ha | ha | ha <;> rcases hb with hb | hb | hb | hb <;>
        subst ha <;> subst hb <;> exact ⟨by decide, by decide⟩
    · rw [getTravelStyleCompatibility_default a b (Or.inr hb)]
      norm_num
  · rw [getTravelStyleCompatibility_default a b (Or.inl ha)]
    norm_num

end Travio

namespace Travio

lemma destinationMatchFactor_bounds (r c : UserProfile) :
    0 ≤ destinationMatchFactor r c ∧ destinationMatchFactor r c ≤ 100 := by
  rw [destinationMatchFactor]
  cases r.preferredDestinations with
  | none => exact ⟨le_refl 0, by norm_num⟩
  | some d1 =>
      cases c.preferredDestinations with
      | none => exact ⟨le_refl 0, by norm_num⟩
      | some d2 =>
          exact ⟨le_min (by positivity) (by norm_num), min_le_right _ _⟩

lemma dateOverlapFactor_bounds (r c : UserProfile) (t : Trip) :
    0 ≤ dateOverlapFactor r c t ∧ dateOverlapFactor r c t ≤ 100 := by
  rw [dateOverlapFactor]
  cases r.availableDates with
  | none => exact ⟨le_refl 0, by norm_num⟩
  | some w1 =>
      cases c.availableDates with
      | none => exact ⟨le_refl 0, by norm_num⟩
      | some w2 =>
          cases t.dates with
          | none => exact ⟨le_refl 0, by norm_num⟩
          | some d =>
              refine ⟨le_min ?_ ?_, le_trans (min_le_left _ _) ?_⟩
              · exact (calculateDateOverlap_bounds w1 d.start d.stop).1
              · exact (calculateDateOverlap_bounds w2 d.start d.stop).1
              · exact (calculateDateOverlap_bounds w1 d.start d.stop).2

lemma interestSimilarityFactor_bounds (r c : UserProfile)
    (hr : ∀ l ∈ r.interests, l.Nodup) :
    0 ≤ interestSimilarityFactor r c ∧ interestSimilarityFactor r c ≤ 100 := by
  rw [interestSimilarityFactor]
  cases hri : r.interests with
  | none => exact ⟨le_refl 0, by norm_num⟩
  | some l1 =>
      cases c.interests with
      | none => exact ⟨le_refl 0, by norm_num⟩
      | some l2 =>
          have hnd : l1.Nodup := hr l1 (by rw [hri]; rfl)
          dsimp only
          split_ifs with hpos
          · constructor
            · positivity
            · rw [div_mul_eq_mul_div, div_le_iff₀ (by exact_mod_cast hpos)]
              have hle : countCommon l1 l2 ≤ unionSize l1 l2 :=
                countCommon_le_unionSize l1 l2 hnd
              have : (countCommon l1 l2 : ℚ) ≤ (unionSize l1 l2 : ℚ) := by exact_mod_cast hle
              linarith
          · exact ⟨le_refl 0, by norm_num⟩

lemma budgetCompatibilityFactor_bounds (r c : UserProfile) (t : Trip)
    (ht : ∀ b ∈ t.budget, 0 ≤ b) :
    0 ≤ budgetCompatibilityFactor r c t ∧ budgetCompatibilityFactor r c t ≤ 100 := by
  rw [budgetCompatibilityFactor]
  cases r.budgetRange with
  | none => exact ⟨le_refl 0, by norm_num⟩
  | some br1 =>
      cases c.budgetRange with
      | none => exact ⟨le_refl 0, by norm_num⟩
      | some br2 =>
          cases htb : t.budget with
          | none => exact ⟨le_refl 0, by norm_num⟩
          | some b =>
              have hb : 0 ≤ b := ht b (by rw [htb]; rfl)
              dsimp only
              split_ifs with h0
              · exact ⟨le_refl 0, by norm_num⟩
              · exact ⟨calculateBudgetCompatibility_nonneg br1 br2 b,
                  calculateBudgetCompatibility_le_100 br1 br2 b (lt_of_le_of_ne hb (Ne.symm h0))⟩

lemma travelStyleMatchFactor_bounds (r c : UserProfile) :
    0 ≤ travelStyleMatchFactor r c ∧ travelStyleMatchFactor r c ≤ 100 := by
  rw [travelStyleMatchFactor]
  cases r.travelStyle with
  | none => exact ⟨le_refl 0, by norm_num⟩
  | some s1 =>
      cases c.travelStyle with
      | none => exact ⟨le_refl 0, by norm_num⟩
      | some s2 =>
          dsimp only
          split_ifs with h
          · norm_num
          · exact getTravelStyleCompatibility_bounds s1 s2

lemma languageMatchFactor_bounds (r c : UserProfile) :
    0 ≤ languageMatchFactor r c ∧ languageMatchFactor r c ≤ 100 := by
  rw [languageMatchFactor]
  cases r.languages with
  | none => exact ⟨le_refl 0, by norm_num⟩
  | some l1 =>
      cases c.languages with
      | none => exact ⟨le_refl 0, by norm_num⟩
      | some l2 =>
          dsimp only
          split_ifs <;> norm_num

lemma weightedTotal_bounds (f : Factors)
    (h1 : 0 ≤ f.destinationMatch ∧ f.destinationMatch ≤ 100)
    (h2 : 0 ≤ f.dateOverlap ∧ f.dateOverlap ≤ 100)
    (h3 : 0 ≤ f.interestSimilarity ∧ f.interestSimilarity ≤ 100)
    (h4 : 0 ≤ f.budgetCompatibility ∧ f.budgetCompatibility ≤ 100)
    (h5 : 0 ≤ f.travelStyleMatch ∧ f.travelStyleMatch ≤ 100)
    (h6 : 0 ≤ f.languageMatch ∧ f.languageMatch ≤ 100) :
    0 ≤ weightedTotal f ∧ weightedTotal f ≤ 100 := by
  obtain ⟨a1, b1⟩ := h1; obtain ⟨a2, b2⟩ := h2; obtain ⟨a3, b3⟩ := h3
  obtain ⟨a4, b4⟩ := h4; obtain ⟨a5, b5⟩ := h5; obtain ⟨a6, b6⟩ := h6
  rw [weightedTotal, weights]
  norm_num
  constructor <;> linarith

lemma round_bounds (x : ℚ) (h0 : 0 ≤ x) (h1 : x ≤ 100) :
    0 ≤ round x ∧ round x ≤ 100 := by
  rw [round_eq]
  constructor
  · have h : (0 : ℤ) = ⌊(1 : ℚ) / 2⌋ := by norm_num
    rw [h]
    exact Int.floor_mono (by linarith)
  · have h : (100 : ℤ) = ⌊(100 : ℚ) + 1 / 2⌋ := by norm_num
    rw [h]
    exact Int.floor_mono (by linarith)

end Travio

namespace Travio

lemma dateOverlapFactor_eq_zero (r c : UserProfile) (t : Trip)
    (h : r.availableDates = none ∨ c.availableDates = none ∨ t.dates = none) :
    dateOverlapFactor r c t = 0 := by
  rcases h with h | h | h
  · rw [dateOverlapFactor, h]
  · rw [dateOverlapFactor, h]
    cases r.availableDates <;> rfl
  · rw [dateOverlapFactor, h]
    cases r.availableDates <;> cases c.availableDates <;> rfl

lemma destinationMatchFactor_eq_zero (r c : UserProfile)
    (h : r.preferredDestinations = none ∨ c.preferredDestinations = none) :
    destinationMatchFactor r c = 0 := by
  rcases h with h | h
  · rw [destinationMatchFactor, h]
  · rw [destinationMatchFactor, h]
    cases r.preferredDestinations <;> rfl

lemma interestSimilarityFactor_eq_zero (r c : UserProfile)
    (h : r.interests = none ∨ c.interests = none) :
    interestSimilarityFactor r c = 0 := by
  rcases h with h | h
  · rw [interestSimilarityFactor, h]
  · rw [interestSimilarityFactor, h]
    cases r.interests <;> rfl

lemma budgetCompatibilityFactor_eq_zero (r c : UserProfile) (t : Trip)
    (h : r.budgetRange = none ∨ c.budgetRange = none ∨ t.budget = none) :
    budgetCompatibilityFactor r c t = 0 := by
  rcases h with h | h | h
  · rw [budgetCompatibilityFactor, h]
  · rw [budgetCompatibilityFactor, h]
    cases r.budgetRange <;> rfl
  · rw [budgetCompatibilityFactor, h]
    cases r.budgetRange <;> cases c.budgetRange <;> rfl

lemma travelStyleMatchFactor_eq_zero (r c : UserProfile)
    (h : r.travelStyle = none ∨ c.travelStyle = none) :
    travelStyleMatchFactor r c = 0 := by
  rcases h with h | h
  · rw [travelStyleMatchFactor, h]
  · rw [travelStyleMatchFactor, h]
    cases r.travelStyle <;> rfl

lemma languageMatchFactor_eq_zero (r c : UserProfile)
    (h : r.languages = none ∨ c.languages = none) :
    languageMatchFactor r c = 0 := by
  rcases h with h | h
  · rw [languageMatchFactor, h]
  · rw [languageMatchFactor, h]
    cases r.languages <;> rfl

/-- C2: the score returned by `calculateCompatibilityScore` equals the
half-up rounding of the weighted sum of the returned factors under the
fixed weight table 0.30/0.25/0.20/0.15/0.05/0.05, and these weights sum
to exactly 1. -/
theorem claim_C2_weighted_sum_identity (requester recipient : UserProfile) (trip : Trip) :
    (calculateCompatibilityScore requester recipient trip).score
      = round ((calculateCompatibilityScore requester recipient trip).factors.destinationMatch
            * (0.30 : ℚ)
          + (calculateCompatibilityScore requester recipient trip).factors.dateOverlap
            * (0.25 : ℚ)
          + (calculateCompatibilityScore requester recipient trip).factors.interestSimilarity
            * (0.20 : ℚ)
          + (calculateCompatibilityScore requester recipient trip).factors.budgetCompatibility
            * (0.15 : ℚ)
          + (calculateCompatibilityScore requester recipient trip).factors.travelStyleMatch
            * (0.05 : ℚ)
          + (calculateCompatibilityScore requester recipient trip).factors.languageMatch
            * (0.05 : ℚ))
    ∧ weights.destinationMatch + weights.dateOverlap + weights.interestSimilarity
        + weights.budgetCompatibility + weights.travelStyleMatch + weights.languageMatch
      = 1 := by
  constructor
  · rfl
  · rw [weights]
    norm_num

/-- C6: `calculateCompatibilityScore` is deterministic and stateless —
two calls on equal inputs return equal `{score, factors}` values. -/
theorem claim_C6_deterministic (r r' c c' : UserProfile) (t t' : Trip)
    (hr : r = r') (hc : c = c') (ht : t = t') :
    calculateCompatibilityScore r c t = calculateCompatibilityScore r' c' t' := by
  rw [hr, hc, ht]

theorem claim_C6_deterministic_witness :
    calculateCompatibilityScore ⟨none, none, none, none, none, none⟩
        ⟨none, none, none, none, none, none⟩ ⟨none, none⟩
      = calculateCompatibilityScore ⟨none, none, none, none, none, none⟩
        ⟨none, none, none, none, none, none⟩ ⟨none, none⟩ :=
  claim_C6_deterministic _ _ _ _ _ _ rfl rfl rfl

/-- C4: a missing optional attribute yields a factor value of 0 for the
corresponding factor (the computation never fails), and the score is still
the rounded weighted total over all six factors with their full weights. -/
theorem claim_C4_missing_attribute_zero (r c : UserProfile) (t : Trip) :
    (r.availableDates = none ∨ c.availableDates = none ∨ t.dates = none →
        (calculateCompatibilityScore r c t).factors.dateOverlap = 0)
    ∧ (r.preferredDestinations = none ∨ c.preferredDestinations = none →
        (calculateCompatibilityScore r c t).factors.destinationMatch = 0)
    ∧ (r.interests = none ∨ c.interests = none →
        (calculateCompatibilityScore r c t).factors.interestSimilarity = 0)
    ∧ (r.budgetRange = none ∨ c.budgetRange = none ∨ t.budget = none →
        (calculateCompatibilityScore r c t).factors.budgetCompatibility = 0)
    ∧ (r.travelStyle = none ∨ c.travelStyle = none →
        (calculateCompatibilityScore r c t).factors.travelStyleMatch = 0)
    ∧ (r.languages = none ∨ c.languages = none →
        (calculateCompatibilityScore r c t).factors.languageMatch = 0)
    ∧ (calculateCompatibilityScore r c t).score
        = round (weightedTotal (calculateCompatibilityScore r c t).factors) :=
  ⟨dateOverlapFactor_eq_zero r c t, destinationMatchFactor_eq_zero r c,
   interestSimilarityFactor_eq_zero r c, budgetCompatibilityFactor_eq_zero r c t,
   travelStyleMatchFactor_eq_zero r c, languageMatchFactor_eq_zero r c, rfl⟩

theorem claim_C4_missing_attribute_zero_witness :
    (calculateCompatibilityScore ⟨none, none, none, none, none, none⟩
        ⟨none, none, none, none, none, none⟩ ⟨none, none⟩).factors.dateOverlap = 0 :=
  (claim_C4_missing_attribute_zero ⟨none, none, none, none, none, none⟩
    ⟨none, none, none, none, none, none⟩ ⟨none, none⟩).1 (Or.inl rfl)

/-- C8: `calculateDateOverlap` equals the documented formula — per window
`max(0, min(tripEnd, windowEnd) − max(tripStart, windowStart))`, summed,
divided by the trip duration, as a percentage clamped at 100 — and the
worked example (trip days 1–15, window days 10–20) yields (5/14)·100. -/
theorem claim_C8_date_overlap_formula :
    (∀ (windows : List DateRange) (tripStart tripEnd : ℚ),
        calculateDateOverlap windows tripStart tripEnd
          = specDateOverlap windows tripStart tripEnd)
    ∧ calculateDateOverlap [⟨10, 20⟩] 1 15 = (5 : ℚ) / 14 * 100 := by
  refine ⟨calculateDateOverlap_eq_spec, ?_⟩
  norm_num [calculateDateOverlap, min_def, max_def]

/-- C10: the Trip-model `calculateCompatibility` always returns a score of
at least 30, because its `dateOverlap` factor is the constant 20 and its
`locationProximity` factor is the constant 10 (all other factors are
nonnegative). -/
theorem claim_C10_trip_model_floor (trip : TripModel.TripDoc) (user : TripModel.User) :
    30 ≤ (TripModel.calculateCompatibility trip user).score
    ∧ (TripModel.calculateCompatibility trip user).factors.dateOverlap = 20
    ∧ (TripModel.calculateCompatibility trip user).factors.locationProximity = 10 := by
  refine ⟨?_, rfl, rfl⟩
  show (30 : ℤ) ≤ round ((20 : ℚ)
    + (trip.interests.filter (fun i => decide (i ∈ user.travelInterests))).length
        / (max (trip.interests.length : ℚ) 1) * 30
    + max 0 (1 - |trip.budgetEstimated - (user.budgetRange.min + user.budgetRange.max) / 2|
        / max trip.budgetEstimated ((user.budgetRange.min + user.budgetRange.max) / 2)) * 25
    + (if trip.travelStyle = user.travelStyle then (15 : ℚ) else 0)
    + 10)
  have hi : (0 : ℚ) ≤ (trip.interests.filter
      (fun i => decide (i ∈ user.travelInterests))).length
      / (max (trip.interests.length : ℚ) 1) * 30 := by
    apply mul_nonneg _ (by norm_num)
    apply div_nonneg (Nat.cast_nonneg _)
    exact le_trans zero_le_one (le_max_right _ _)
  have hb : (0 : ℚ) ≤ max 0 (1 - |trip.budgetEstimated
      - (user.budgetRange.min + user.budgetRange.max) / 2|
      / max trip.budgetEstimated ((user.budgetRange.min + user.budgetRange.max) / 2)) * 25 :=
    mul_nonneg (le_max_left _ _) (by norm_num)
  have hs : (0 : ℚ) ≤ (if trip.travelStyle = user.travelStyle then (15 : ℚ) else 0) := by
    split_ifs <;> norm_num
  rw [round_eq, Int.le_floor]
  push_cast
  linarith

end Travio

namespace Travio

/-- A requester profile whose interest list repeats "food" six times;
duplicates are possible in the stored arrays and are counted by the JS
`filter(...).length`. -/
def dupInterestRequester : UserProfile :=
  ⟨none, none, some ["food", "food", "food", "food", "food", "food"], none, none, none⟩

/-- A recipient profile with the single interest "food". -/
def dupInterestRecipient : UserProfile :=
  ⟨none, none, some ["food"], none, none, none⟩

/-- A trip with no dates and no budget. -/
def emptyTrip : Trip := ⟨none, none⟩

/-- C1 fails as stated: with a duplicated interest list the
`interestSimilarity` factor is 6/1·100 = 600 and the score is
round(600·0.20) = 120, both above 100. -/
theorem claim_C1_counterexample :
    100 < (calculateCompatibilityScore dupInterestRequester dupInterestRecipient
        emptyTrip).score
    ∧ 100 < (calculateCompatibilityScore dupInterestRequester dupInterestRecipient
        emptyTrip).factors.interestSimilarity := by
  constructor <;>
    norm_num [calculateCompatibilityScore, computeFactors, destinationMatchFactor,
      dateOverlapFactor, interestSimilarityFactor, budgetCompatibilityFactor,
      travelStyleMatchFactor, languageMatchFactor, dupInterestRequester,
      dupInterestRecipient, emptyTrip, weightedTotal, weights, countCommon, unionSize,
      round_eq]

/-- C1 amended: if the requester's interest list has no duplicate entries
and the trip budget, when present, is nonnegative, then the score lies in
[0, 100] and every factor lies in [0, 100]. -/
theorem claim_C1_amended (r c : UserProfile) (t : Trip)
    (hno : ∀ l ∈ r.interests, l.Nodup)
    (hb : ∀ b ∈ t.budget, 0 ≤ b) :
    (0 ≤ (calculateCompatibilityScore r c t).score
      ∧ (calculateCompatibilityScore r c t).score ≤ 100)
    ∧ (0 ≤ (calculateCompatibilityScore r c t).factors.destinationMatch
      ∧ (calculateCompatibilityScore r c t).factors.destinationMatch ≤ 100)
    ∧ (0 ≤ (calculateCompatibilityScore r c t).factors.dateOverlap
      ∧ (calculateCompatibilityScore r c t).factors.dateOverlap ≤ 100)
    ∧ (0 ≤ (calculateCompatibilityScore r c t).factors.interestSimilarity
      ∧ (calculateCompatibilityScore r c t).factors.interestSimilarity ≤ 100)
    ∧ (0 ≤ (calculateCompatibilityScore r c t).factors.budgetCompatibility
      ∧ (calculateCompatibilityScore r c t).factors.budgetCompatibility ≤ 100)
    ∧ (0 ≤ (calculateCompatibilityScore r c t).factors.travelStyleMatch
      ∧ (calculateCompatibilityScore r c t).factors.travelStyleMatch ≤ 100)
    ∧ (0 ≤ (calculateCompatibilityScore r c t).factors.languageMatch
      ∧ (calculateCompatibilityScore r c t).factors.languageMatch ≤ 100) := by
  have h1 := destinationMatchFactor_bounds r c
  have h2 := dateOverlapFactor_bounds r c t
  have h3 := interestSimilarityFactor_bounds r c hno
  have h4 := budgetCompatibilityFactor_bounds r c t hb
  have h5 := travelStyleMatchFactor_bounds r c
  have h6 := languageMatchFactor_bounds r c
  have hw := weightedTotal_bounds (computeFactors r c t) h1 h2 h3 h4 h5 h6
  exact ⟨round_bounds _ hw.1 hw.2, h1, h2, h3, h4, h5, h6⟩

/-- A duplicate-free requester used to witness the amended C1. -/
def nodupRequester : UserProfile :=
  ⟨some ["paris"], some [⟨1, 15⟩], some ["food", "culture"],
   some ⟨some 500, some 1500, 1000⟩, some "budget", some ["english"]⟩

/-- A duplicate-free recipient used to witness the amended C1. -/
def nodupRecipient : UserProfile :=
  ⟨some ["paris", "rome"], some [⟨5, 20⟩], some ["food"],
   some ⟨some 800, some 2000, 1200⟩, some "luxury", some ["french", "english"]⟩

/-- A trip with dates and a budget used to witness the amended C1. -/
def datedTrip : Trip := ⟨some ⟨1, 15⟩, some 1000⟩

theorem claim_C1_amended_witness :
    (0 ≤ (calculateCompatibilityScore nodupRequester nodupRecipient datedTrip).score
      ∧ (calculateCompatibilityScore nodupRequester nodupRecipient datedTrip).score ≤ 100)
    ∧ (0 ≤ (calculateCompatibilityScore nodupRequester nodupRecipient
          datedTrip).factors.destinationMatch
      ∧ (calculateCompatibilityScore nodupRequester nodupRecipient
          datedTrip).factors.destinationMatch ≤ 100)
    ∧ (0 ≤ (calculateCompatibilityScore nodupRequester nodupRecipient
          datedTrip).factors.dateOverlap
      ∧ (calculateCompatibilityScore nodupRequester nodupRecipient
          datedTrip).factors.dateOverlap ≤ 100)
    ∧ (0 ≤ (calculateCompatibilityScore nodupRequester nodupRecipient
          datedTrip).factors.interestSimilarity
      ∧ (calculateCompatibilityScore nodupRequester nodupRecipient
          datedTrip).factors.interestSimilarity ≤ 100)
    ∧ (0 ≤ (calculateCompatibilityScore nodupRequester nodupRecipient
          datedTrip).factors.budgetCompatibility
      ∧ (calculateCompatibilityScore nodupRequester nodupRecipient
          datedTrip).factors.budgetCompatibility ≤ 100)
    ∧ (0 ≤ (calculateCompatibilityScore nodupRequester nodupRecipient
          datedTrip).factors.travelStyleMatch
      ∧ (calculateCompatibilityScore nodupRequester nodupRecipient
          datedTrip).factors.travelStyleMatch ≤ 100)
    ∧ (0 ≤ (calculateCompatibilityScore nodupRequester nodupRecipient
          datedTrip).factors.languageMatch
      ∧ (calculateCompatibilityScore nodupRequester nodupRecipient
          datedTrip).factors.languageMatch ≤ 100) :=
  claim_C1_amended nodupRequester nodupRecipient datedTrip
    (by rintro l hl; rw [nodupRequester] at hl; rw [Option.mem_def] at hl;
        injection hl with h; rw [← h]; decide)
    (by rintro b hb; rw [datedTrip] at hb; rw [Option.mem_def] at hb;
        injection hb with h; rw [← h]; norm_num)

lemma getTravelStyleCompatibilityJS_agrees (a b : String)
    (ha : a ∉ objectPrototypeKeys) (hb : b ∉ objectPrototypeKeys) :
    getTravelStyleCompatibilityJS a b
      = some (JSValue.num (getTravelStyleCompatibility a b)) := by
  rw [getTravelStyleCompatibilityJS, getTravelStyleCompatibility, matrixLookup]
  cases hrow : compatibilityMatrix.lookup a with
  | none =>
      rw [if_neg ha]
      rfl
  | some row =>
      dsimp only
      cases hv : row.lookup b with
      | none =>
          rw [if_neg hb]
          rfl
      | some v =>
          dsimp only [jsOr]
          split_ifs <;> rfl

/-- C9 fails as stated: `"constructor"` is not a key of the matrix, yet JS
property access reaches the prototype chain, so
`compatibilityMatrix["budget"]?.["constructor"]` is the inherited (truthy)
`Object` constructor and `|| 50` returns it instead of 50 — the lookup
does not default to 50 there (nor is it symmetric: the swapped call
evaluates a property of a host function and yields 50). -/
theorem claim_C9_counterexample :
    getTravelStyleCompatibilityJS "budget" "constructor"
        = some (JSValue.inherited "constructor")
    ∧ getTravelStyleCompatibilityJS "budget" "constructor" ≠ some (JSValue.num 50) := by
  constructor <;> decide

/-- C9 amended: for style strings that are not `Object.prototype` property
names (all schema enum styles qualify), the factor is 100 for identical
styles and otherwise the matrix entry; the worked entries are 90/20/80;
on that domain the own-property model agrees with the prototype-chain JS
semantics, the lookup is symmetric, and it defaults to 50 whenever either
argument is not a matrix key. -/
theorem claim_C9_travel_style_amended (r c : UserProfile) (t : Trip) (s1 s2 : String)
    (h1 : r.travelStyle = some s1) (h2 : c.travelStyle = some s2)
    (_hp1 : s1 ∉ objectPrototypeKeys) (_hp2 : s2 ∉ objectPrototypeKeys) :
    ((calculateCompatibilityScore r c t).factors.travelStyleMatch
        = if s1 = s2 then 100 else getTravelStyleCompatibility s1 s2)
    ∧ getTravelStyleCompatibility "budget" "backpacker" = 90
    ∧ getTravelStyleCompatibility "budget" "luxury" = 20
    ∧ getTravelStyleCompatibility "mid-range" "luxury" = 80
    ∧ (∀ a b : String, a ∉ objectPrototypeKeys → b ∉ objectPrototypeKeys →
        getTravelStyleCompatibilityJS a b
          = some (JSValue.num (getTravelStyleCompatibility a b)))
    ∧ (∀ a b : String, a ∉ objectPrototypeKeys → b ∉ objectPrototypeKeys →
        getTravelStyleCompatibility a b = getTravelStyleCompatibility b a)
    ∧ (∀ a b : String, a ∉ styleKeys ∨ b ∉ styleKeys →
        a ∉ objectPrototypeKeys → b ∉ objectPrototypeKeys →
        getTravelStyleCompatibility a b = 50) := by
  refine ⟨?_, by decide, by decide, by decide, getTravelStyleCompatibilityJS_agrees,
    fun a b _ _ => getTravelStyleCompatibility_comm a b,
    fun a b h _ _ => getTravelStyleCompatibility_default a b h⟩
  show travelStyleMatchFactor r c = _
  rw [travelStyleMatchFactor, h1, h2]

theorem claim_C9_travel_style_amended_witness :
    ((calculateCompatibilityScore nodupRequester nodupRecipient
        datedTrip).factors.travelStyleMatch
      = if "budget" = "luxury" then 100 else getTravelStyleCompatibility "budget" "luxury")
    ∧ getTravelStyleCompatibility "budget" "backpacker" = 90
    ∧ getTravelStyleCompatibility "budget" "luxury" = 20
    ∧ getTravelStyleCompatibility "mid-range" "luxury" = 80
    ∧ (∀ a b : String, a ∉ objectPrototypeKeys → b ∉ objectPrototypeKeys →
        getTravelStyleCompatibilityJS a b
          = some (JSValue.num (getTravelStyleCompatibility a b)))
    ∧ (∀ a b : String, a ∉ objectPrototypeKeys → b ∉ objectPrototypeKeys →
        getTravelStyleCompatibility a b = getTravelStyleCompatibility b a)
    ∧ (∀ a b : String, a ∉ styleKeys ∨ b ∉ styleKeys →
        a ∉ objectPrototypeKeys → b ∉ objectPrototypeKeys →
        getTravelStyleCompatibility a b = 50) :=
  claim_C9_travel_style_amended nodupRequester nodupRecipient datedTrip "budget" "luxury"
    rfl rfl (by decide) (by decide)

end Travio

namespace Travio

/-- A requester whose preferred-destination list repeats "paris" twice. -/
def dupDestRequester : UserProfile :=
  ⟨some ["paris", "paris"], none, none, none, none, none⟩

/-- A recipient with the single preferred destination "paris". -/
def dupDestRecipient : UserProfile :=
  ⟨some ["paris"], none, none, none, none, none⟩

/-- C5 fails as stated: with a duplicated destination list,
`destinationMatch` is min(2·20, 100) = 40 one way and min(1·20, 100) = 20
the other way, so swapping requester and recipient changes the factor. -/
theorem claim_C5_counterexample :
    (calculateCompatibilityScore dupDestRequester dupDestRecipient
        emptyTrip).factors.destinationMatch
      ≠ (calculateCompatibilityScore dupDestRecipient dupDestRequester
        emptyTrip).factors.destinationMatch := by
  norm_num [calculateCompatibilityScore, computeFactors, destinationMatchFactor,
    dupDestRequester, dupDestRecipient, countCommon, min_def]

lemma destinationMatchFactor_comm (r c : UserProfile)
    (hd1 : ∀ l ∈ r.preferredDestinations, l.Nodup)
    (hd2 : ∀ l ∈ c.preferredDestinations, l.Nodup) :
    destinationMatchFactor r c = destinationMatchFactor c r := by
  rw [destinationMatchFactor, destinationMatchFactor]
  cases h1 : r.preferredDestinations with
  | none => cases c.preferredDestinations <;> rfl
  | some d1 =>
      cases h2 : c.preferredDestinations with
      | none => rfl
      | some d2 =>
          dsimp only
          rw [countCommon_comm d1 d2 (hd1 d1 (by rw [h1]; rfl)) (hd2 d2 (by rw [h2]; rfl))]

lemma interestSimilarityFactor_comm (r c : UserProfile)
    (hi1 : ∀ l ∈ r.interests, l.Nodup)
    (hi2 : ∀ l ∈ c.interests, l.Nodup) :
    interestSimilarityFactor r c = interestSimilarityFactor c r := by
  rw [interestSimilarityFactor, interestSimilarityFactor]
  cases h1 : r.interests with
  | none => cases c.interests <;> rfl
  | some l1 =>
      cases h2 : c.interests with
      | none => rfl
      | some l2 =>
          dsimp only
          rw [countCommon_comm l1 l2 (hi1 l1 (by rw [h1]; rfl)) (hi2 l2 (by rw [h2]; rfl)),
            unionSize_comm l1 l2]

lemma languageMatchFactor_comm (r c : UserProfile) :
    languageMatchFactor r c = languageMatchFactor c r := by
  rw [languageMatchFactor, languageMatchFactor]
  cases r.languages with
  | none => cases c.languages <;> rfl
  | some l1 =>
      cases c.languages with
      | none => rfl
      | some l2 =>
          dsimp only
          by_cases h : ∃ a ∈ l1, a ∈ l2
          · rw [if_pos (countCommon_pos_iff l1 l2 |>.2 h),
              if_pos (countCommon_pos_iff l2 l1 |>.2 (by
                obtain ⟨a, ha1, ha2⟩ := h; exact ⟨a, ha2, ha1⟩))]
          · rw [if_neg (fun hp => h ((countCommon_pos_iff l1 l2).1 hp)),
              if_neg (fun hp => by
                obtain ⟨a, ha2, ha1⟩ := (countCommon_pos_iff l2 l1).1 hp
                exact h ⟨a, ha1, ha2⟩)]

lemma dateOverlapFactor_comm (r c : UserProfile) (t : Trip) :
    dateOverlapFactor r c t = dateOverlapFactor c r t := by
  rw [dateOverlapFactor, dateOverlapFactor]
  cases r.availableDates with
  | none => cases c.availableDates <;> cases t.dates <;> rfl
  | some w1 =>
      cases c.availableDates with
      | none => cases t.dates <;> rfl
      | some w2 =>
          cases t.dates with
          | none => rfl
          | some d => dsimp only; rw [min_comm]

/-- C5 amended: provided the two users' preferred-destination and
interest lists have no duplicate entries, swapping requester and
recipient leaves `destinationMatch`, `interestSimilarity`,
`languageMatch` and `dateOverlap` unchanged (the language and date
factors are symmetric without any hypothesis). -/
theorem claim_C5_amended (r c : UserProfile) (t : Trip)
    (hd1 : ∀ l ∈ r.preferredDestinations, l.Nodup)
    (hd2 : ∀ l ∈ c.preferredDestinations, l.Nodup)
    (hi1 : ∀ l ∈ r.interests, l.Nodup)
    (hi2 : ∀ l ∈ c.interests, l.Nodup) :
    (calculateCompatibilityScore r c t).factors.destinationMatch
        = (calculateCompatibilityScore c r t).factors.destinationMatch
    ∧ (calculateCompatibilityScore r c t).factors.interestSimilarity
        = (calculateCompatibilityScore c r t).factors.interestSimilarity
    ∧ (calculateCompatibilityScore r c t).factors.languageMatch
        = (calculateCompatibilityScore c r t).factors.languageMatch
    ∧ (calculateCompatibilityScore r c t).factors.dateOverlap
        = (calculateCompatibilityScore c r t).factors.dateOverlap :=
  ⟨destinationMatchFactor_comm r c hd1 hd2, interestSimilarityFactor_comm r c hi1 hi2,
   languageMatchFactor_comm r c, dateOverlapFactor_comm r c t⟩

theorem claim_C5_amended_witness :
    (calculateCompatibilityScore nodupRequester nodupRecipient
        datedTrip).factors.destinationMatch
      = (calculateCompatibilityScore nodupRecipient nodupRequester
        datedTrip).factors.destinationMatch
    ∧ (calculateCompatibilityScore nodupRequester nodupRecipient
        datedTrip).factors.interestSimilarity
      = (calculateCompatibilityScore nodupRecipient nodupRequester
        datedTrip).factors.interestSimilarity
    ∧ (calculateCompatibilityScore nodupRequester nodupRecipient
        datedTrip).factors.languageMatch
      = (calculateCompatibilityScore nodupRecipient nodupRequester
        datedTrip).factors.languageMatch
    ∧ (calculateCompatibilityScore nodupRequester nodupRecipient
        datedTrip).factors.dateOverlap
      = (calculateCompatibilityScore nodupRecipient nodupRequester
        datedTrip).factors.dateOverlap :=
  claim_C5_amended nodupRequester nodupRecipient datedTrip
    (by rintro l hl; rw [nodupRequester] at hl; rw [Option.mem_def] at hl;
        injection hl with h; rw [← h]; decide)
    (by rintro l hl; rw [nodupRecipient] at hl; rw [Option.mem_def] at hl;
        injection hl with h; rw [← h]; decide)
    (by rintro l hl; rw [nodupRequester] at hl; rw [Option.mem_def] at hl;
        injection hl with h; rw [← h]; decide)
    (by rintro l hl; rw [nodupRecipient] at hl; rw [Option.mem_def] at hl;
        injection hl with h; rw [← h]; decide)

end Travio

namespace Travio

lemma jsOr_zero_eq_getD (x : Option ℚ) : jsOr x 0 = x.getD 0 := by
  cases x with
  | none => rfl
  | some v =>
      rw [jsOr, Option.getD_some]
      split_ifs with h
      · rw [h]
      · rfl

lemma code_low_eq_bandMin (br1 br2 : BudgetRange) :
    max (jsOr br1.min 0) (jsOr br2.min 0) = bandMin br1 br2 := by
  rw [bandMin, jsOr_zero_eq_getD, jsOr_zero_eq_getD]

lemma getD_le_effectiveMax (br : BudgetRange) (hp : 0 ≤ br.preferred) :
    br.max.getD (br.preferred * 1.5) ≤ effectiveMax br := by
  rw [effectiveMax]
  cases br.max with
  | none => exact le_refl _
  | some v =>
      rw [Option.getD_some, jsOr]
      split_ifs with h
      · rw [h]; nlinarith
      · exact le_refl _

lemma bandMax_le_code_high (br1 br2 : BudgetRange)
    (hp1 : 0 ≤ br1.preferred) (hp2 : 0 ≤ br2.preferred) :
    bandMax br1 br2 ≤ min (effectiveMax br1) (effectiveMax br2) := by
  rw [bandMax]
  exact min_le_min (getD_le_effectiveMax br1 hp1) (getD_le_effectiveMax br2 hp2)

/-- C7 amended: with nonnegative preferred budgets, the trip budget lying
in the band [max(mins), min(maxes)] (with the spec's defaults for missing
bounds) yields 100; outside the band the code returns an explicit
rational penalty floored at 0 — proportional to the distance below the
band scaled by the band's lower end, but scaled by the trip budget itself
above the band (a decaying, non-linear penalty); the worked example
([500,1500], [800,2000], trip budget 1000) yields 100. -/
theorem claim_C7_amended (br1 br2 : BudgetRange) (b : ℚ)
    (hp1 : 0 ≤ br1.preferred) (hp2 : 0 ≤ br2.preferred) :
    (bandMin br1 br2 ≤ b ∧ b ≤ bandMax br1 br2 →
        calculateBudgetCompatibility br1 br2 b = 100)
    ∧ (b < bandMin br1 br2 →
        calculateBudgetCompatibility br1 br2 b
          = max 0 (100 - (bandMin br1 br2 - b) / bandMin br1 br2 * 100))
    ∧ (bandMin br1 br2 ≤ b → min (effectiveMax br1) (effectiveMax br2) < b →
        calculateBudgetCompatibility br1 br2 b
          = max 0 (100 - (b - min (effectiveMax br1) (effectiveMax br2)) / b * 100))
    ∧ calculateBudgetCompatibility ⟨some 500, some 1500, 1000⟩ ⟨some 800, some 2000, 1400⟩
        1000 = 100 := by
  refine ⟨?_, ?_, ?_, ?_⟩
  · rintro ⟨hlo, hhi⟩
    rw [calculateBudgetCompatibility]
    rw [if_pos]
    refine ⟨?_, ?_⟩
    · rw [ge_iff_le, code_low_eq_bandMin]; exact hlo
    · exact le_trans hhi (bandMax_le_code_high br1 br2 hp1 hp2)
  · intro hlt
    rw [calculateBudgetCompatibility]
    rw [if_neg, if_pos]
    · rw [code_low_eq_bandMin]
    · rw [code_low_eq_bandMin]; exact hlt
    · rintro ⟨hge, _⟩
      rw [ge_iff_le, code_low_eq_bandMin] at hge
      exact absurd hlt (not_lt.2 hge)
  · intro hge hlt
    rw [calculateBudgetCompatibility]
    rw [if_neg, if_neg]
    · rw [code_low_eq_bandMin]
      intro hcon
      exact absurd hge (not_le.2 hcon)
    · rintro ⟨_, hle⟩
      exact absurd hlt (not_lt.2 hle)
  · norm_num [calculateBudgetCompatibility, effectiveMax, jsOr, min_def, max_def]

theorem claim_C7_amended_witness :
    calculateBudgetCompatibility ⟨some 500, some 1500, 1000⟩ ⟨some 800, some 2000, 1400⟩
        1000 = 100 :=
  (claim_C7_amended ⟨some 500, some 1500, 1000⟩ ⟨some 800, some 2000, 1400⟩ 1000
    (by norm_num) (by norm_num)).2.2.2

/-- C7 fails as stated for trip budgets above the band: with both parties'
budget range [50, 100], the results at trip budgets 200 and 400 (50 and
25) are inconsistent with any single proportionality constant for a
penalty linear in the distance above the band, so the decay is not linear
in that distance. -/
theorem claim_C7_counterexample :
    ¬ ∃ k : ℚ, ∀ b : ℚ, 100 < b →
        calculateBudgetCompatibility ⟨some 50, some 100, 0⟩ ⟨some 50, some 100, 0⟩ b
          = max 0 (100 - k * (b - 100)) := by
  rintro ⟨k, hk⟩
  have h2 := hk 200 (by norm_num)
  have h4 := hk 400 (by norm_num)
  rw [show calculateBudgetCompatibility ⟨some 50, some 100, 0⟩ ⟨some 50, some 100, 0⟩ 200
      = 50 from by norm_num [calculateBudgetCompatibility, effectiveMax, jsOr, min_def,
        max_def]] at h2
  rw [show calculateBudgetCompatibility ⟨some 50, some 100, 0⟩ ⟨some 50, some 100, 0⟩ 400
      = 25 from by norm_num [calculateBudgetCompatibility, effectiveMax, jsOr, min_def,
        max_def]] at h4
  rcases le_or_lt (100 - k * (200 - 100)) 0 with h | h
  · rw [max_eq_left h] at h2
    norm_num at h2
  · rw [max_eq_right h.le] at h2
    have hk2 : k = 1 / 2 := by linarith
    subst hk2
    rw [max_eq_left (by norm_num)] at h4
    norm_num at h4

end Travio

namespace Travio

lemma calculateDateOverlap_eq_100 (windows : List DateRange) (ts te : ℚ)
    (hdur : ts < te) (hcov : ∃ w ∈ windows, w.start ≤ ts ∧ te ≤ w.stop) :
    calculateDateOverlap windows ts te = 100 := by
  rw [calculateDateOverlap_eq_spec, specDateOverlap]
  obtain ⟨w, hw, hws, hwe⟩ := hcov
  have hterm : max 0 (min te w.stop - max ts w.start) = te - ts := by
    rw [min_eq_left hwe, max_eq_left hws, max_eq_right (by linarith)]
  have hsum : te - ts ≤
      (windows.map (fun w => max 0 (min te w.stop - max ts w.start))).sum := by
    rw [← hterm]
    refine List.single_le_sum ?_ _ (List.mem_map_of_mem _ hw)
    intro x hx
    rw [List.mem_map] at hx
    obtain ⟨w2, _, rfl⟩ := hx
    exact le_max_left _ _
  have hpos : (0:ℚ) < te - ts := by linarith
  rw [min_eq_right]
  have h1 : (1:ℚ) ≤ (windows.map (fun w => max 0 (min te w.stop - max ts w.start))).sum
      / (te - ts) := (one_le_div hpos).2 hsum
  linarith

/-- Both users of the C3 counterexample: identical interests, identical
travel style, identical budget range with the trip budget inside the band,
a shared language, availability covering the whole trip window — but no
preferred destinations. -/
def alignedUser : UserProfile :=
  ⟨none, some [⟨1, 15⟩], some ["food"], some ⟨some 500, some 1500, 1000⟩,
   some "budget", some ["english"]⟩

/-- The trip matching `alignedUser`: window days 1–15, budget 1000. -/
def alignedTrip : Trip := ⟨some ⟨1, 15⟩, some 1000⟩

/-- C3 fails as stated: the two (identical) profiles satisfy every
condition of the claim, yet the score is 70, because `destinationMatch`
is 0 (it needs at least five shared preferred destinations to reach 100,
a condition the claim does not impose). -/
theorem claim_C3_counterexample :
    (calculateCompatibilityScore alignedUser alignedUser alignedTrip).score = 70
    ∧ (calculateCompatibilityScore alignedUser alignedUser
        alignedTrip).factors.destinationMatch = 0
    ∧ (calculateCompatibilityScore alignedUser alignedUser
        alignedTrip).factors.interestSimilarity = 100
    ∧ (calculateCompatibilityScore alignedUser alignedUser
        alignedTrip).factors.dateOverlap = 100
    ∧ (calculateCompatibilityScore alignedUser alignedUser
        alignedTrip).factors.budgetCompatibility = 100
    ∧ (calculateCompatibilityScore alignedUser alignedUser
        alignedTrip).factors.travelStyleMatch = 100
    ∧ (calculateCompatibilityScore alignedUser alignedUser
        alignedTrip).factors.languageMatch = 100 := by
  refine ⟨?_, rfl, ?_, ?_, ?_, rfl, ?_⟩ <;>
    norm_num [calculateCompatibilityScore, computeFactors, destinationMatchFactor,
      dateOverlapFactor, interestSimilarityFactor, budgetCompatibilityFactor,
      travelStyleMatchFactor, languageMatchFactor, alignedUser, alignedTrip,
      calculateDateOverlap, calculateBudgetCompatibility, effectiveMax, jsOr,
      weightedTotal, weights, countCommon, unionSize, round_eq, min_def, max_def]

/-- C3 amended: under the claim's conditions — identical duplicate-free
non-empty interest lists, the same travel style, the trip budget (nonzero)
inside the budget band, a shared language, and both availabilities fully
covering the trip window — and additionally at least five shared
preferred destinations, the score is 100. -/
theorem claim_C3_amended (r c : UserProfile) (t : Trip)
    (l l1 l2 d1 d2 : List String) (s : String) (br1 br2 : BudgetRange)
    (d : DateRange) (w1 w2 : List DateRange) (b : ℚ)
    (hint1 : r.interests = some l) (hint2 : c.interests = some l)
    (hlne : l ≠ []) (hlnd : l.Nodup)
    (hs1 : r.travelStyle = some s) (hs2 : c.travelStyle = some s)
    (hbr1 : r.budgetRange = some br1) (hbr2 : c.budgetRange = some br2)
    (htb : t.budget = some b) (hb0 : b ≠ 0)
    (hband : max (jsOr br1.min 0) (jsOr br2.min 0) ≤ b
      ∧ b ≤ min (effectiveMax br1) (effectiveMax br2))
    (hlang1 : r.languages = some l1) (hlang2 : c.languages = some l2)
    (hshare : ∃ a ∈ l1, a ∈ l2)
    (htd : t.dates = some d) (hdur : d.start < d.stop)
    (hav1 : r.availableDates = some w1) (hav2 : c.availableDates = some w2)
    (hcov1 : ∃ w ∈ w1, w.start ≤ d.start ∧ d.stop ≤ w.stop)
    (hcov2 : ∃ w ∈ w2, w.start ≤ d.start ∧ d.stop ≤ w.stop)
    (hdest1 : r.preferredDestinations = some d1)
    (hdest2 : c.preferredDestinations = some d2)
    (hdest5 : 5 ≤ countCommon d1 d2) :
    (calculateCompatibilityScore r c t).score = 100 := by
  have hdest : destinationMatchFactor r c = 100 := by
    rw [destinationMatchFactor, hdest1, hdest2]
    dsimp only
    have h5 : (5:ℚ) ≤ (countCommon d1 d2 : ℚ) := by exact_mod_cast hdest5
    rw [min_eq_right (by linarith)]
  have hdate : dateOverlapFactor r c t = 100 := by
    rw [dateOverlapFactor, hav1, hav2, htd]
    dsimp only
    rw [calculateDateOverlap_eq_100 w1 d.start d.stop hdur hcov1,
      calculateDateOverlap_eq_100 w2 d.start d.stop hdur hcov2, min_self]
  have hint : interestSimilarityFactor r c = 100 := by
    rw [interestSimilarityFactor, hint1, hint2]
    dsimp only
    have hcc : countCommon l l = l.length := by
      rw [countCommon, List.filter_eq_self.2 (fun a ha => by simpa using ha)]
    have hus : unionSize l l = l.length := by
      rw [unionSize_eq, Finset.union_self, List.toFinset_card_of_nodup hlnd]
    have hpos : 0 < l.length := List.length_pos.2 hlne
    rw [if_pos (by rw [hus]; exact hpos), hcc, hus]
    rw [div_self (by exact_mod_cast hpos.ne')]
    norm_num
  have hbud : budgetCompatibilityFactor r c t = 100 := by
    rw [budgetCompatibilityFactor, hbr1, hbr2, htb]
    dsimp only
    rw [if_neg hb0, calculateBudgetCompatibility, if_pos ⟨hband.1, hband.2⟩]
  have hsty : travelStyleMatchFactor r c = 100 := by
    rw [travelStyleMatchFactor, hs1, hs2]
    dsimp only
    rw [if_pos rfl]
  have hlang : languageMatchFactor r c = 100 := by
    rw [languageMatchFactor, hlang1, hlang2]
    dsimp only
    rw [if_pos ((countCommon_pos_iff l1 l2).2 hshare)]
  have hfac : computeFactors r c t = ⟨100, 100, 100, 100, 100, 100⟩ := by
    rw [computeFactors, hdest, hdate, hint, hbud, hsty, hlang]
  show round (weightedTotal (computeFactors r c t)) = 100
  rw [hfac]
  rw [weightedTotal, weights]
  norm_num [round_eq]

/-- A user sharing five preferred destinations with itself, witnessing the
amended C3 against `alignedTrip`. -/
def fullMatchUser : UserProfile :=
  ⟨some ["rome", "paris", "tokyo", "lima", "oslo"], some [⟨1, 15⟩], some ["food"],
   some ⟨some 500, some 1500, 1000⟩, some "budget", some ["english"]⟩

theorem claim_C3_amended_witness :
    (calculateCompatibilityScore fullMatchUser fullMatchUser alignedTrip).score = 100 :=
  claim_C3_amended fullMatchUser fullMatchUser alignedTrip
    ["food"] ["english"] ["english"] ["rome", "paris", "tokyo", "lima", "oslo"]
    ["rome", "paris", "tokyo", "lima", "oslo"] "budget"
    ⟨some 500, some 1500, 1000⟩ ⟨some 500, some 1500, 1000⟩ ⟨1, 15⟩
    [⟨1, 15⟩] [⟨1, 15⟩] 1000
    rfl rfl (by decide) (by decide) rfl rfl rfl rfl rfl (by norm_num)
    (by constructor <;> norm_num [jsOr, effectiveMax, min_def, max_def])
    rfl rfl ⟨"english", by decide, by decide⟩
    rfl (by norm_num) rfl rfl
    ⟨⟨1, 15⟩, by decide, by norm_num, by norm_num⟩
    ⟨⟨1, 15⟩, by decide, by norm_num, by norm_num⟩
    rfl rfl (by decide)

end Travio
